import Mathlib

/-!
Verification of the background system-telemetry service
(`app/services/system_info_service.py`): the Metric Store's bounded
realtime history, the Command Executor, and the S.M.A.R.T. discovery
and analysis pipeline, shallowly embedded in Lean 4.
-/

set_option maxRecDepth 4000

/-! ## Health status enumeration (`HealthStatus` in the source) -/

inductive HealthStatus where
  | HEALTHY
  | WARNING
  | FAILED
  | UNKNOWN
deriving DecidableEq, Repr

/-- Python `HealthStatus.<member>.name`. -/
def HealthStatus.name : HealthStatus → String
  | .HEALTHY => "HEALTHY"
  | .WARNING => "WARNING"
  | .FAILED => "FAILED"
  | .UNKNOWN => "UNKNOWN"

/-- Python `HealthStatus.<member>.value`. -/
def HealthStatus.value : HealthStatus → String
  | .HEALTHY => "健康 (PASSED)"
  | .WARNING => "警告 (WARNING)"
  | .FAILED => "危险 (FAILED)"
  | .UNKNOWN => "未知 (UNKNOWN)"

/-- Numeric severity used to state monotone escalation
(HEALTHY below WARNING below FAILED; UNKNOWN never occurs inside an
analysis pass and is placed at the bottom). -/
def severity : HealthStatus → Nat
  | .HEALTHY => 0
  | .UNKNOWN => 0
  | .WARNING => 1
  | .FAILED => 2

/-! ## Critical ATA attribute table (`CRITICAL_ATA_ATTRIBUTES`) -/

/-- The table `CRITICAL_ATA_ATTRIBUTES`: attribute id paired with
(name, description, check-raw flag). -/
def CRITICAL_ATA_ATTRIBUTES : List (Int × String × String × Bool) :=
  [ (5, ("Reallocated_Sector_Ct",
      ("已重映射扇区数。当硬盘发现读/写/校验错误时，会将该扇区标记为“已重映射”并使用备用扇区替换。非零值是磁盘表面退化的明确信号。",
       true))),
    (187, ("Reported_Uncorrect", ("无法修正的错误计数。非零值表示存在数据损坏风险。", true))),
    (188, ("Command_Timeout", ("命令超时计数。可能与电源或线缆问题有关。", true))),
    (197, ("Current_Pending_Sector_Ct",
      ("当前待处理扇区数。这些是不稳定扇区，等待被重映射。非零值是即将发生故障的强烈预警。", true))),
    (198, ("Offline_Uncorrectable", ("脱机无法校正的错误计数。与197类似，是严重问题的标志。", true))) ]

/-- Python `attr_id in CRITICAL_ATA_ATTRIBUTES` / `CRITICAL_ATA_ATTRIBUTES[attr_id]`. -/
def lookupCritical (i : Int) : Option (String × String × Bool) :=
  (CRITICAL_ATA_ATTRIBUTES.find? (fun e => e.1 = i)).map (·.2)

/-! ## Raw S.M.A.R.T. payload, as read by `_analyze_smart_data`

The analyzer reads a JSON dict through a fixed set of typed accesses;
the embedding records exactly the values those accesses produce:

* `smart_status_passed` is the truthiness of
  `raw_data.get("smart_status", dict()).get("passed", False)`;
* `nvme_log` is present iff `"nvme_smart_health_information_log"` is a
  key, with fields already carrying the `.get(_, 0)` defaults;
* `ata_table` is present iff `"ata_smart_attributes"` is a key and is
  the list `raw_data["ata_smart_attributes"]["table"]`;
* for a table entry, `raw_value` is `int(attr.get("raw", dict()).get("value", 0))`
  and `value`/`worst`/`thresh` are the optional `attr.get(...)` reads;
* `temperature_current` is `raw_data.get("temperature", dict()).get("current")`.

A `None` or empty payload (`if not raw_data`) is modelled as `Option.none`
at the call sites. -/

structure NvmeLog where
  critical_warning : Int
  percentage_used : Int
deriving DecidableEq, Repr

structure AtaAttr where
  id : Int
  raw_value : Int
  value : Option Int
  worst : Option Int
  thresh : Option Int
deriving DecidableEq, Repr

structure RawSmartData where
  smart_status_passed : Bool
  nvme_log : Option NvmeLog
  ata_table : Option (List AtaAttr)
  temperature_current : Option Int
deriving DecidableEq, Repr

/-- One critical-attribute finding appended to `critical_attributes`. -/
structure CriticalAttribute where
  id : Int
  name : String
  raw_value : Int
  description : String
  value : Option Int
  worst : Option Int
  thresh : Option Int
deriving DecidableEq, Repr

/-- The analysis report dict returned by `_analyze_smart_data`. -/
structure SmartAnalysis where
  health_status : String
  health_status_description : String
  summary : List String
  critical_attributes : List CriticalAttribute
  recommendations : List String
deriving DecidableEq, Repr

/-! ## The analysis pass

The body of `_analyze_smart_data` mutates four locals
(`status`, `summary`, `recommendations`, `critical_attributes`);
the embedding threads them as an explicit state through the rule
blocks in source order. -/

structure AnalysisState where
  status : HealthStatus
  summary : List String
  recommendations : List String
  critical_attributes : List CriticalAttribute
deriving DecidableEq, Repr

def initial_state : AnalysisState :=
  { status := .HEALTHY, summary := [], recommendations := [], critical_attributes := [] }

/-- The idiom `if status == HealthStatus.HEALTHY: status = HealthStatus.WARNING`. -/
def escalateIfHealthy (s : HealthStatus) : HealthStatus :=
  if s = .HEALTHY then .WARNING else s

/-- Rule block 1: `if not raw_data.get("smart_status", dict()).get("passed", False)`. -/
def ruleSelfTest (raw : RawSmartData) (st : AnalysisState) : AnalysisState :=
  if ¬ raw.smart_status_passed then
    { st with
      status := .FAILED
      summary := st.summary ++ ["❌ 整体S.M.A.R.T.自检状态为失败！"]
      recommendations := st.recommendations ++ ["立即备份所有重要数据并准备更换此硬盘！"] }
  else
    { st with summary := st.summary ++ ["✅ 整体S.M.A.R.T.自检状态为通过。"] }

/-- Rule block 2: the `"nvme_smart_health_information_log" in raw_data` block
(critical warning check, then percentage-used check). -/
def ruleNvme (raw : RawSmartData) (st : AnalysisState) : AnalysisState :=
  match raw.nvme_log with
  | none => st
  | some log =>
    let st1 :=
      if log.critical_warning > 0 then
        { st with
          status := .FAILED
          summary := st.summary ++ ["❌ NVMe 发现严重警告。"]
          recommendations := st.recommendations ++ ["立即检查SSD状态，备份数据。"] }
      else st
    if log.percentage_used > 85 then
      { st1 with
        status := escalateIfHealthy st1.status
        summary := st1.summary ++
          ["⚠️ NVMe SSD 已用寿命达到 " ++ toString log.percentage_used ++ "%。"]
        recommendations := st1.recommendations ++ ["考虑在不久的将来更换此SSD。"] }
    else st1

/-- Body of the `for attr in raw_data["ata_smart_attributes"]["table"]` loop. -/
def ruleAtaAttr (attr : AtaAttr) (st : AnalysisState) : AnalysisState :=
  match lookupCritical attr.id with
  | none => st
  | some (nm, desc, check_raw) =>
    if check_raw ∧ attr.raw_value > 0 then
      { st with
        status := escalateIfHealthy st.status
        summary := st.summary ++
          ["⚠️ 发现关键属性异常：" ++ nm ++ " (ID " ++ toString attr.id ++ ") 的值为 "
            ++ toString attr.raw_value ++ "。"]
        recommendations := st.recommendations ++
          ["监控 " ++ nm ++ " 的值。如果持续增长，请准备更换硬盘。"]
        critical_attributes := st.critical_attributes ++
          [{ id := attr.id, name := nm, raw_value := attr.raw_value, description := desc,
             value := attr.value, worst := attr.worst, thresh := attr.thresh }] }
    else st

/-- Rule block 3: the `"ata_smart_attributes" in raw_data` loop. -/
def ruleAta (raw : RawSmartData) (st : AnalysisState) : AnalysisState :=
  match raw.ata_table with
  | none => st
  | some table => table.foldl (fun s attr => ruleAtaAttr attr s) st

/-- Rule block 4: `temp is not None and temp > 55`. -/
def ruleTemperature (raw : RawSmartData) (st : AnalysisState) : AnalysisState :=
  match raw.temperature_current with
  | none => st
  | some t =>
    if t > 55 then
      { st with
        status := escalateIfHealthy st.status
        summary := st.summary ++ ["🔥 温度偏高 (" ++ toString t ++ "°C)！"]
        recommendations := st.recommendations ++ ["检查机箱通风和散热情况。"] }
    else st

/-- Rule block 5: `len(summary) == 1 and "✅" in summary[0]`
(the check mark is a single code point, so Python substring containment
is character containment here). -/
def ruleNoAnomalies (st : AnalysisState) : AnalysisState :=
  if st.summary.length = 1 ∧ (st.summary.headD "").contains '✅' then
    { st with
      summary := st.summary ++ ["✅ 未发现明显的S.M.A.R.T.警告属性。"]
      recommendations := st.recommendations ++ ["继续保持良好使用习惯，定期检查。"] }
  else st

/-- The five rule blocks of one analysis pass, in source order. -/
inductive SmartRule where
  | selfTest
  | nvme
  | ataAttrs
  | temperature
  | noAnomalies
deriving DecidableEq, Repr

def applyRule (raw : RawSmartData) : SmartRule → AnalysisState → AnalysisState
  | .selfTest => ruleSelfTest raw
  | .nvme => ruleNvme raw
  | .ataAttrs => ruleAta raw
  | .temperature => ruleTemperature raw
  | .noAnomalies => ruleNoAnomalies

def passRules : List SmartRule :=
  [.selfTest, .nvme, .ataAttrs, .temperature, .noAnomalies]

/-- The straight-line body of `_analyze_smart_data` on a truthy payload:
the five rule blocks applied in source order to the initial state. -/
def analyzeRaw (raw : RawSmartData) : AnalysisState :=
  passRules.foldl (fun st r => applyRule raw r st) initial_state

/-- The early-return branch for `if not raw_data`. -/
def unknownAnalysis : SmartAnalysis :=
  { health_status := HealthStatus.UNKNOWN.name,
    health_status_description := HealthStatus.UNKNOWN.value,
    summary := ["无法获取S.M.A.R.T.数据。"],
    critical_attributes := [],
    recommendations := ["请检查设备连接和权限。"] }

/-- `SystemInfoService._analyze_smart_data`; `none` models a `None` or
empty (falsy) `raw_data`. -/
def analyze_smart_data : Option RawSmartData → SmartAnalysis
  | none => unknownAnalysis
  | some raw =>
    let st := analyzeRaw raw
    { health_status := st.status.name,
      health_status_description := st.status.value,
      summary := st.summary,
      critical_attributes := st.critical_attributes,
      recommendations := st.recommendations }

/-! ## Realtime history (`deque(maxlen=...)` in `start` /
`_realtime_collection_loop`) -/

/-- One entry appended by `_realtime_collection_loop`
(`{'timestamp': ..., 'data': status}`); the payload content is opaque
to the ring-buffer behaviour. -/
structure RealtimeSample where
  timestamp : String
  cpu_usage_percent_total : Int
  memory_used_bytes : Int
deriving DecidableEq, Repr

/-- `max_len = (retention_mins * 60) // interval` in `start`. -/
def realtimeMaxLen (retention_mins interval : Nat) : Nat :=
  retention_mins * 60 / interval

/-- `collections.deque(maxlen=m).append x`: append on the right and, if
the length now exceeds `m`, discard from the left down to `m` elements
(for `m = 0` the deque stays empty). -/
def deque_append {α : Type} (maxlen : Nat) (xs : List α) (x : α) : List α :=
  let ys := xs ++ [x]
  if maxlen < ys.length then ys.drop (ys.length - maxlen) else ys

/-! ## Command Executor (`_run_command`) -/

/-- Outcome of the underlying `subprocess.run(..., check=True, timeout=60)`
call: normal completion with a return code and captured output, or one of
the exception classes the source catches. -/
inductive SubprocessOutcome where
  | completed (returncode : Int) (stdout : String) (stderr : String)
  | fileNotFound (filename : String)
  | timedOut
  | otherError (msg : String)
deriving DecidableEq, Repr

def notFoundMsg (filename : String) : String :=
  "命令未找到: " ++ filename ++ "。请确保相关工具已安装。"

def timeoutMsg (full_command : List String) : String :=
  "命令 '" ++ String.intercalate " " full_command ++ "' 执行超时。"

/-- The `CalledProcessError` branch: `e.stderr.strip() if e.stderr else e.stdout.strip()`
(an empty captured stderr is falsy), embedded in the failure message. -/
def calledProcessMsg (full_command : List String) (returncode : Int)
    (stdout stderr : String) : String :=
  let error_msg := if stderr = "" then stdout.trim else stderr.trim
  "命令 '" ++ String.intercalate " " full_command ++ "' 执行失败: " ++ error_msg
    ++ " (Exit Code: " ++ toString returncode ++ ")"

def unknownErrorMsg (msg : String) : String :=
  "执行命令时发生未知错误: " ++ msg

/-- `SystemInfoService._run_command`: with `check=True`, a nonzero return
code surfaces as `CalledProcessError`; every outcome is mapped to a
`(success, payload)` pair and nothing propagates to the caller. -/
def run_command (command : List String) (use_sudo : Bool)
    (outcome : SubprocessOutcome) : Bool × String :=
  let full_command := if use_sudo then "sudo" :: command else command
  match outcome with
  | .completed rc out err =>
    if rc = 0 then (true, out.trim)
    else (false, calledProcessMsg full_command rc out err)
  | .fileNotFound fn => (false, notFoundMsg fn)
  | .timedOut => (false, timeoutMsg full_command)
  | .otherError m => (false, unknownErrorMsg m)

/-! ## Per-device S.M.A.R.T. collection (`_collect_all_smart_info`) -/

/-- A device discovered by `_get_smart_device_list`. -/
structure SmartDevice where
  path : String
  type_args : List String
deriving DecidableEq, Repr

/-- One value of the `disk_info` dict. -/
structure DiskInfoEntry where
  raw_smart_data : Option RawSmartData
  analysis : SmartAnalysis
deriving DecidableEq, Repr

/-- Python dict assignment on an insertion-ordered association list:
overwrite in place if the key exists, append otherwise. -/
def updateAssoc {β : Type} : List (String × β) → String → β → List (String × β)
  | [], k, v => [(k, v)]
  | (k', v') :: rest, k, v =>
    if k' = k then (k', v) :: rest else (k', v') :: updateAssoc rest k v

/-- Python dict lookup on the association list. -/
def lookupAssoc {β : Type} : List (String × β) → String → Option β
  | [], _ => none
  | (k', v) :: rest, k => if k' = k then some v else lookupAssoc rest k

/-- The body of the per-device loop of `_collect_all_smart_info`:
`fetch d = none` models a failed `_get_raw_smart_data_for_device`
(fetch or parse error), in which case `raw_data` stays `None` and the
stored analysis is `_analyze_smart_data(None)`. -/
def smartStep (fetch : SmartDevice → Option RawSmartData)
    (report : List (String × DiskInfoEntry)) (d : SmartDevice) : List (String × DiskInfoEntry) :=
  let raw := fetch d
  updateAssoc report d.path { raw_smart_data := raw, analysis := analyze_smart_data raw }

/-- The per-device loop of `_collect_all_smart_info`, building `disk_info`. -/
def collect_all_smart_info (devices : List SmartDevice)
    (fetch : SmartDevice → Option RawSmartData) : List (String × DiskInfoEntry) :=
  devices.foldl (smartStep fetch) []

/-! ## Reference model for the copy-out accessors

Python values live on a heap of objects addressed by references;
`dict.copy()` is a shallow copy: a fresh top-level dict whose entries
alias the same referenced objects. -/

abbrev Ref := Nat

inductive PyObj where
  | prim (v : Int)
  | pstr (s : String)
  | pdict (entries : List (String × Ref))
  | plist (items : List Ref)
deriving DecidableEq, Repr

abbrev Heap := List PyObj

/-- References stored directly inside one object. -/
def objRefs : PyObj → List Ref
  | .pdict es => es.map (·.2)
  | .plist items => items
  | _ => []

/-- A closed heap: every stored reference points inside the heap. -/
def heapWF (h : Heap) : Prop :=
  ∀ obj ∈ h, ∀ r ∈ objRefs obj, r < h.length

/-- `SystemInfoService.get_hardware_info`: `self._hardware_info.copy()`
allocates a fresh dict sharing the entry references (shallow copy) and
returns a reference to it. -/
def get_hardware_info (h : Heap) (hardware_info : Ref) : Heap × Ref :=
  match h.get? hardware_info with
  | some (.pdict es) => (h ++ [.pdict es], h.length)
  | _ => (h ++ [.pdict []], h.length)

/-- A caller-side mutation `obj[k] = v` on a dict object. -/
def dictSet (h : Heap) (r : Ref) (k : String) (v : Ref) : Heap :=
  match h.get? r with
  | some (.pdict es) => h.set r (.pdict (updateAssoc es k v))
  | _ => h

/-- Reading a value by following a path of dict keys from a reference;
this observes the deep content of a snapshot. -/
def readPath (h : Heap) (r : Ref) : List String → Option PyObj
  | [] => h.get? r
  | k :: ks =>
    match h.get? r with
    | some (.pdict es) =>
      match lookupAssoc es k with
      | some r' => readPath h r' ks
      | none => none
    | _ => none

/-! ## Derived characterizations of one analysis pass

Each rule block is proved below to act on the state by appending a fixed
segment to each list and applying a status update; these segment
functions are computed from the rule definitions above. -/

def selfTestStatusUpd (raw : RawSmartData) (s : HealthStatus) : HealthStatus :=
  if raw.smart_status_passed then s else .FAILED

def selfTestSummarySeg (raw : RawSmartData) : List String :=
  if raw.smart_status_passed then ["✅ 整体S.M.A.R.T.自检状态为通过。"]
  else ["❌ 整体S.M.A.R.T.自检状态为失败！"]

def selfTestRecSeg (raw : RawSmartData) : List String :=
  if raw.smart_status_passed then [] else ["立即备份所有重要数据并准备更换此硬盘！"]

def puLine (pu : Int) : String :=
  "⚠️ NVMe SSD 已用寿命达到 " ++ toString pu ++ "%。"

def nvmeStatusUpd (raw : RawSmartData) (s : HealthStatus) : HealthStatus :=
  match raw.nvme_log with
  | none => s
  | some log =>
    let s1 := if log.critical_warning > 0 then HealthStatus.FAILED else s
    if log.percentage_used > 85 then escalateIfHealthy s1 else s1

def nvmeSummarySeg (raw : RawSmartData) : List String :=
  match raw.nvme_log with
  | none => []
  | some log =>
    (if log.critical_warning > 0 then ["❌ NVMe 发现严重警告。"] else []) ++
      (if log.percentage_used > 85 then [puLine log.percentage_used] else [])

def nvmeRecSeg (raw : RawSmartData) : List String :=
  match raw.nvme_log with
  | none => []
  | some log =>
    (if log.critical_warning > 0 then ["立即检查SSD状态，备份数据。"] else []) ++
      (if log.percentage_used > 85 then ["考虑在不久的将来更换此SSD。"] else [])

def ataStatusStep (a : AtaAttr) (s : HealthStatus) : HealthStatus :=
  match lookupCritical a.id with
  | none => s
  | some (_, _, cr) => if cr ∧ a.raw_value > 0 then escalateIfHealthy s else s

def ataSummaryOf (a : AtaAttr) : Option String :=
  match lookupCritical a.id with
  | none => none
  | some (nm, _, cr) =>
    if cr ∧ a.raw_value > 0 then
      some ("⚠️ 发现关键属性异常：" ++ nm ++ " (ID " ++ toString a.id ++ ") 的值为 "
        ++ toString a.raw_value ++ "。")
    else none

def ataRecOf (a : AtaAttr) : Option String :=
  match lookupCritical a.id with
  | none => none
  | some (nm, _, cr) =>
    if cr ∧ a.raw_value > 0 then
      some ("监控 " ++ nm ++ " 的值。如果持续增长，请准备更换硬盘。")
    else none

def ataFindingOf (a : AtaAttr) : Option CriticalAttribute :=
  match lookupCritical a.id with
  | none => none
  | some (nm, ds, cr) =>
    if cr ∧ a.raw_value > 0 then
      some { id := a.id, name := nm, raw_value := a.raw_value, description := ds,
             value := a.value, worst := a.worst, thresh := a.thresh }
    else none

def ataStatusUpd (raw : RawSmartData) (s : HealthStatus) : HealthStatus :=
  match raw.ata_table with
  | none => s
  | some t => t.foldl (fun s a => ataStatusStep a s) s

def ataSummarySeg (raw : RawSmartData) : List String :=
  match raw.ata_table with
  | none => []
  | some t => t.filterMap ataSummaryOf

def ataRecSeg (raw : RawSmartData) : List String :=
  match raw.ata_table with
  | none => []
  | some t => t.filterMap ataRecOf

def ataFindingSeg (raw : RawSmartData) : List CriticalAttribute :=
  match raw.ata_table with
  | none => []
  | some t => t.filterMap ataFindingOf

def tempStatusUpd (raw : RawSmartData) (s : HealthStatus) : HealthStatus :=
  match raw.temperature_current with
  | none => s
  | some t => if t > 55 then escalateIfHealthy s else s

def tempLine (t : Int) : String :=
  "🔥 温度偏高 (" ++ toString t ++ "°C)！"

def tempSummarySeg (raw : RawSmartData) : List String :=
  match raw.temperature_current with
  | none => []
  | some t => if t > 55 then [tempLine t] else []

def tempRecSeg (raw : RawSmartData) : List String :=
  match raw.temperature_current with
  | none => []
  | some t => if t > 55 then ["检查机箱通风和散热情况。"] else []

def preNoAnomaliesSummary (raw : RawSmartData) : List String :=
  selfTestSummarySeg raw ++ nvmeSummarySeg raw ++ ataSummarySeg raw ++ tempSummarySeg raw

def noAnomaliesSummarySeg (raw : RawSmartData) : List String :=
  if (preNoAnomaliesSummary raw).length = 1 ∧ ((preNoAnomaliesSummary raw).headD "").contains '✅'
  then ["✅ 未发现明显的S.M.A.R.T.警告属性。"] else []

def noAnomaliesRecSeg (raw : RawSmartData) : List String :=
  if (preNoAnomaliesSummary raw).length = 1 ∧ ((preNoAnomaliesSummary raw).headD "").contains '✅'
  then ["继续保持良好使用习惯，定期检查。"] else []

/-- Final status produced by the five rule blocks in source order. -/
def passStatus (raw : RawSmartData) : HealthStatus :=
  tempStatusUpd raw (ataStatusUpd raw (nvmeStatusUpd raw (selfTestStatusUpd raw .HEALTHY)))

/-! ## Concrete test fixtures for the scenarios and witnesses -/

def attrRealloc3 : AtaAttr :=
  { id := 5, raw_value := 3, value := some 100, worst := some 100, thresh := some 10 }

def attrPending2 : AtaAttr :=
  { id := 197, raw_value := 2, value := none, worst := none, thresh := none }

/-- Scenario A payload: ATA attribute 5 with raw value 3, self-test
passed, temperature 40, everything else nominal. -/
def rawScenarioA : RawSmartData :=
  { smart_status_passed := true, nvme_log := none,
    ata_table := some [attrRealloc3], temperature_current := some 40 }

/-- A payload satisfying the literal antecedent of Scenario A (its table
contains attribute 5 with raw value 3, self-test passed, temperature 40)
but with a second positive critical attribute. -/
def rawScenarioATwo : RawSmartData :=
  { smart_status_passed := true, nvme_log := none,
    ata_table := some [attrRealloc3, attrPending2], temperature_current := some 40 }

/-- Scenario C payload with the self-test indicator passing. -/
def rawScenarioC : RawSmartData :=
  { smart_status_passed := true,
    nvme_log := some { critical_warning := 0, percentage_used := 90 },
    ata_table := none, temperature_current := none }

/-- A payload with NVMe percentage-used 90 and critical-warning 0 whose
self-test indicator does not report passed. -/
def rawScenarioCFail : RawSmartData :=
  { smart_status_passed := false,
    nvme_log := some { critical_warning := 0, percentage_used := 90 },
    ata_table := none, temperature_current := none }

/-- A payload firing every rule at once (self-test failed, NVMe critical
warning, NVMe life usage, a critical ATA attribute, high temperature). -/
def rawEverything : RawSmartData :=
  { smart_status_passed := false,
    nvme_log := some { critical_warning := 3, percentage_used := 90 },
    ata_table := some [attrRealloc3], temperature_current := some 60 }

def devSda : SmartDevice := { path := "/dev/sda", type_args := [] }

def devSdb : SmartDevice := { path := "/dev/sdb", type_args := [] }

/-- A fetch oracle where `/dev/sda` fails and `/dev/sdb` succeeds. -/
def fetchSdaFails : SmartDevice → Option RawSmartData :=
  fun d => if d.path = "/dev/sda" then none else some rawScenarioA

/-- A second oracle differing from `fetchSdaFails` only at `/dev/sda`. -/
def fetchSdaOk : SmartDevice → Option RawSmartData :=
  fun d => if d.path = "/dev/sda" then some rawScenarioC else some rawScenarioA

/-- A store heap whose hardware dict `{'data': {'x': 1}}` sits at
reference 0, with the nested dict at reference 1. -/
def heapNested : Heap :=
  [PyObj.pdict [("data", 1)], PyObj.pdict [("x", 2)], PyObj.prim 1]

/-! ## Theorems -/

/-! ### The realtime history ring buffer (C1) -/

lemma deque_append_of_drop {α : Type} (m : Nat) (l : List α) (x : α) :
    deque_append m (l.drop (l.length - m)) x = (l ++ [x]).drop (l.length + 1 - m) := by
  unfold deque_append
  rcases le_or_lt m l.length with h | h
  · have hk : l.length - m ≤ l.length := Nat.sub_le _ _
    have hlen : (l.drop (l.length - m) ++ [x]).length = m + 1 := by
      simp [List.length_drop]
      omega
    rw [if_pos (by omega : m < (l.drop (l.length - m) ++ [x]).length)]
    rw [hlen]
    have h2 : m + 1 - m = 1 := by omega
    rw [h2]
    rw [← List.drop_append_of_le_length hk, List.drop_drop]
    congr 1
    omega
  · have h0 : l.length - m = 0 := by omega
    have h1 : l.length + 1 - m = 0 := by omega
    rw [h0, h1, List.drop_zero, List.drop_zero]
    rw [if_neg (by simp; omega : ¬ m < (l ++ [x]).length)]

lemma foldl_deque_drop {α : Type} (m : Nat) (samples : List α) :
    samples.foldl (fun h s => deque_append m h s) [] = samples.drop (samples.length - m) := by
  induction samples using List.reverseRecOn with
  | nil => simp
  | append_singleton l x ih =>
    rw [List.foldl_append, List.foldl_cons, List.foldl_nil, ih, deque_append_of_drop]
    congr 1
    simp

/-- C1: with capacity `floor(R*60/I)` as computed in `start`, the realtime
history obtained by appending any stream of samples to the fresh deque is
exactly the most recent `capacity`-many samples of the stream, in
chronological order; hence its length never exceeds the capacity, and when
the deque is full the oldest sample is evicted first. -/
theorem realtime_history_capacity_fifo :
    ∀ (retention_mins interval : Nat) (samples : List RealtimeSample),
      (samples.foldl (fun h s => deque_append (realtimeMaxLen retention_mins interval) h s)
          []).length ≤ realtimeMaxLen retention_mins interval ∧
      samples.foldl (fun h s => deque_append (realtimeMaxLen retention_mins interval) h s) []
          = samples.drop (samples.length - realtimeMaxLen retention_mins interval) := by
  intro R I samples
  refine ⟨?_, foldl_deque_drop _ _⟩
  rw [foldl_deque_drop, List.length_drop]
  omega

/-! ### Determinism of the analyzer (C3) -/

/-- C3: `_analyze_smart_data` is a pure function of its payload: equal raw
payloads produce identical `SmartAnalysis` reports. -/
theorem analyze_smart_data_deterministic :
    ∀ (d1 d2 : Option RawSmartData), d1 = d2 → analyze_smart_data d1 = analyze_smart_data d2 := by
  intro d1 d2 h
  rw [h]

/-- Witness for C3 at the Scenario A payload. -/
theorem analyze_smart_data_deterministic_witness :
    analyze_smart_data (some rawScenarioA) = analyze_smart_data (some rawScenarioA) :=
  analyze_smart_data_deterministic (some rawScenarioA) (some rawScenarioA) rfl

/-! ### The Command Executor (C4) -/

/-- C4: `_run_command` is a total function into `(success, payload)`
pairs — every outcome of the child process, including the exceptional
ones, is mapped to a value, never re-raised.  On success the payload is
the stripped stdout; on failure it is one of the diagnostic strings for
program-not-found, timeout, non-zero exit (embedding the exit code and
the captured stderr, or stdout when stderr is empty), or an unexpected
exception. -/
theorem run_command_never_raises :
    ∀ (command : List String) (use_sudo : Bool) (oc : SubprocessOutcome),
      ((run_command command use_sudo oc).1 = true ∧
        ∃ out err, oc = .completed 0 out err ∧ (run_command command use_sudo oc).2 = out.trim)
      ∨ ((run_command command use_sudo oc).1 = false ∧
        ((∃ fn, oc = .fileNotFound fn ∧
            (run_command command use_sudo oc).2 = notFoundMsg fn)
          ∨ (oc = .timedOut ∧
            (run_command command use_sudo oc).2 =
              timeoutMsg (if use_sudo then "sudo" :: command else command))
          ∨ (∃ rc out err, oc = .completed rc out err ∧ rc ≠ 0 ∧
            (run_command command use_sudo oc).2 =
              calledProcessMsg (if use_sudo then "sudo" :: command else command) rc out err)
          ∨ (∃ m, oc = .otherError m ∧
            (run_command command use_sudo oc).2 = unknownErrorMsg m))) := by
  intro command use_sudo oc
  cases oc with
  | completed rc out err =>
    by_cases h : rc = 0
    · subst h
      exact Or.inl ⟨rfl, out, err, rfl, rfl⟩
    · refine Or.inr ⟨?_, Or.inr (Or.inr (Or.inl ⟨rc, out, err, rfl, h, ?_⟩))⟩ <;>
        simp [run_command, h]
  | fileNotFound fn => exact Or.inr ⟨rfl, Or.inl ⟨fn, rfl, rfl⟩⟩
  | timedOut => exact Or.inr ⟨rfl, Or.inr (Or.inl ⟨rfl, rfl⟩)⟩
  | otherError m => exact Or.inr ⟨rfl, Or.inr (Or.inr (Or.inr ⟨m, rfl, rfl⟩))⟩

/-! ### Characterization of the analysis pass -/

lemma filterMap_cons_toList {α β : Type} (f : α → Option β) (a : α) (l : List α) :
    List.filterMap f (a :: l) = (f a).toList ++ List.filterMap f l := by
  cases h : f a <;> simp [List.filterMap_cons, h]

lemma ruleSelfTest_spec (raw : RawSmartData) (st : AnalysisState) :
    ruleSelfTest raw st =
      { status := selfTestStatusUpd raw st.status
        summary := st.summary ++ selfTestSummarySeg raw
        recommendations := st.recommendations ++ selfTestRecSeg raw
        critical_attributes := st.critical_attributes } := by
  cases st
  cases h : raw.smart_status_passed <;>
    simp [ruleSelfTest, selfTestStatusUpd, selfTestSummarySeg, selfTestRecSeg, h]

lemma ruleNvme_spec (raw : RawSmartData) (st : AnalysisState) :
    ruleNvme raw st =
      { status := nvmeStatusUpd raw st.status
        summary := st.summary ++ nvmeSummarySeg raw
        recommendations := st.recommendations ++ nvmeRecSeg raw
        critical_attributes := st.critical_attributes } := by
  cases st
  cases h : raw.nvme_log with
  | none => simp [ruleNvme, nvmeStatusUpd, nvmeSummarySeg, nvmeRecSeg, h]
  | some log =>
    by_cases h1 : log.critical_warning > 0 <;> by_cases h2 : log.percentage_used > 85 <;>
      simp [ruleNvme, nvmeStatusUpd, nvmeSummarySeg, nvmeRecSeg, puLine, h, h1, h2,
        List.append_assoc]

lemma ruleAtaAttr_spec (a : AtaAttr) (st : AnalysisState) :
    ruleAtaAttr a st =
      { status := ataStatusStep a st.status
        summary := st.summary ++ (ataSummaryOf a).toList
        recommendations := st.recommendations ++ (ataRecOf a).toList
        critical_attributes := st.critical_attributes ++ (ataFindingOf a).toList } := by
  cases st
  cases h : lookupCritical a.id with
  | none => simp [ruleAtaAttr, ataStatusStep, ataSummaryOf, ataRecOf, ataFindingOf, h]
  | some v =>
    obtain ⟨nm, ds, cr⟩ := v
    by_cases hc : cr = true ∧ a.raw_value > 0 <;>
      simp [ruleAtaAttr, ataStatusStep, ataSummaryOf, ataRecOf, ataFindingOf, h, hc]

lemma ruleAta_foldl_spec :
    ∀ (t : List AtaAttr) (st : AnalysisState),
      t.foldl (fun s a => ruleAtaAttr a s) st =
        { status := t.foldl (fun s a => ataStatusStep a s) st.status
          summary := st.summary ++ t.filterMap ataSummaryOf
          recommendations := st.recommendations ++ t.filterMap ataRecOf
          critical_attributes := st.critical_attributes ++ t.filterMap ataFindingOf } := by
  intro t
  induction t with
  | nil => intro st; cases st; simp
  | cons a t ih =>
    intro st
    rw [List.foldl_cons, ih, ruleAtaAttr_spec]
    simp [filterMap_cons_toList, List.append_assoc]

lemma ruleAta_spec (raw : RawSmartData) (st : AnalysisState) :
    ruleAta raw st =
      { status := ataStatusUpd raw st.status
        summary := st.summary ++ ataSummarySeg raw
        recommendations := st.recommendations ++ ataRecSeg raw
        critical_attributes := st.critical_attributes ++ ataFindingSeg raw } := by
  cases h : raw.ata_table with
  | none => cases st; simp [ruleAta, ataStatusUpd, ataSummarySeg, ataRecSeg, ataFindingSeg, h]
  | some t =>
    simp [ruleAta, ataStatusUpd, ataSummarySeg, ataRecSeg, ataFindingSeg, h, ruleAta_foldl_spec]

lemma ruleTemperature_spec (raw : RawSmartData) (st : AnalysisState) :
    ruleTemperature raw st =
      { status := tempStatusUpd raw st.status
        summary := st.summary ++ tempSummarySeg raw
        recommendations := st.recommendations ++ tempRecSeg raw
        critical_attributes := st.critical_attributes } := by
  cases st
  cases h : raw.temperature_current with
  | none => simp [ruleTemperature, tempStatusUpd, tempSummarySeg, tempRecSeg, h]
  | some t =>
    by_cases ht : t > 55 <;>
      simp [ruleTemperature, tempStatusUpd, tempSummarySeg, tempRecSeg, tempLine, h, ht]

lemma ruleNoAnomalies_spec (st : AnalysisState) :
    ruleNoAnomalies st =
      { status := st.status
        summary := st.summary ++
          (if st.summary.length = 1 ∧ (st.summary.headD "").contains '✅'
            then ["✅ 未发现明显的S.M.A.R.T.警告属性。"] else [])
        recommendations := st.recommendations ++
          (if st.summary.length = 1 ∧ (st.summary.headD "").contains '✅'
            then ["继续保持良好使用习惯，定期检查。"] else [])
        critical_attributes := st.critical_attributes } := by
  unfold ruleNoAnomalies
  split_ifs with hc <;> cases st <;> simp

lemma analyzeRaw_steps (raw : RawSmartData) :
    analyzeRaw raw =
      ruleNoAnomalies (ruleTemperature raw (ruleAta raw (ruleNvme raw
        (ruleSelfTest raw initial_state)))) := rfl

lemma analyzeRaw_spec (raw : RawSmartData) :
    analyzeRaw raw =
      { status := passStatus raw
        summary := preNoAnomaliesSummary raw ++ noAnomaliesSummarySeg raw
        recommendations := selfTestRecSeg raw ++ nvmeRecSeg raw ++ ataRecSeg raw ++
          tempRecSeg raw ++ noAnomaliesRecSeg raw
        critical_attributes := ataFindingSeg raw } := by
  rw [analyzeRaw_steps, ruleSelfTest_spec, ruleNvme_spec, ruleAta_spec, ruleTemperature_spec,
    ruleNoAnomalies_spec]
  simp only [initial_state, List.nil_append, List.append_assoc]
  simp [passStatus, preNoAnomaliesSummary, noAnomaliesSummarySeg, noAnomaliesRecSeg,
    List.append_assoc]

/-! ### Status escalation lemmas -/

lemma severity_le_two (s : HealthStatus) : severity s ≤ 2 := by
  cases s <;> simp [severity]

lemma escalateIfHealthy_mono (s : HealthStatus) : severity s ≤ severity (escalateIfHealthy s) := by
  cases s <;> simp [escalateIfHealthy, severity]

lemma severity_two_iff (s : HealthStatus) : 2 ≤ severity s ↔ s = .FAILED := by
  cases s <;> simp [severity]

lemma severity_one_ne_healthy (s : HealthStatus) : 1 ≤ severity s → s ≠ .HEALTHY := by
  cases s <;> simp [severity]

lemma selfTestStatusUpd_mono (raw : RawSmartData) (s : HealthStatus) :
    severity s ≤ severity (selfTestStatusUpd raw s) := by
  unfold selfTestStatusUpd
  split
  · exact le_refl _
  · simpa [severity] using severity_le_two s

lemma nvmeStatusUpd_mono (raw : RawSmartData) (s : HealthStatus) :
    severity s ≤ severity (nvmeStatusUpd raw s) := by
  unfold nvmeStatusUpd
  cases raw.nvme_log with
  | none => exact le_refl _
  | some log =>
    by_cases h1 : log.critical_warning > 0 <;> by_cases h2 : log.percentage_used > 85 <;>
      simp only [h1, h2, if_true, if_false, if_pos, if_neg, not_false_iff] <;>
      first
        | exact le_refl _
        | exact escalateIfHealthy_mono s
        | simpa [escalateIfHealthy, severity] using severity_le_two s

lemma ataStatusStep_mono (a : AtaAttr) (s : HealthStatus) :
    severity s ≤ severity (ataStatusStep a s) := by
  unfold ataStatusStep
  split
  · exact le_refl _
  · split
    · exact escalateIfHealthy_mono s
    · exact le_refl _

lemma ataStatusFold_mono :
    ∀ (t : List AtaAttr) (s : HealthStatus),
      severity s ≤ severity (t.foldl (fun s a => ataStatusStep a s) s) := by
  intro t
  induction t with
  | nil => intro s; exact le_refl _
  | cons a t ih => intro s; exact le_trans (ataStatusStep_mono a s) (ih _)

lemma ataStatusUpd_mono (raw : RawSmartData) (s : HealthStatus) :
    severity s ≤ severity (ataStatusUpd raw s) := by
  unfold ataStatusUpd
  cases raw.ata_table with
  | none => exact le_refl _
  | some t => exact ataStatusFold_mono t s

lemma tempStatusUpd_mono (raw : RawSmartData) (s : HealthStatus) :
    severity s ≤ severity (tempStatusUpd raw s) := by
  unfold tempStatusUpd
  split
  · exact le_refl _
  · split
    · exact escalateIfHealthy_mono s
    · exact le_refl _

lemma applyRule_status_mono (raw : RawSmartData) (r : SmartRule) (st : AnalysisState) :
    severity st.status ≤ severity ((applyRule raw r st).status) := by
  cases r with
  | selfTest =>
    rw [show applyRule raw .selfTest st = ruleSelfTest raw st from rfl, ruleSelfTest_spec]
    exact selfTestStatusUpd_mono raw st.status
  | nvme =>
    rw [show applyRule raw .nvme st = ruleNvme raw st from rfl, ruleNvme_spec]
    exact nvmeStatusUpd_mono raw st.status
  | ataAttrs =>
    rw [show applyRule raw .ataAttrs st = ruleAta raw st from rfl, ruleAta_spec]
    exact ataStatusUpd_mono raw st.status
  | temperature =>
    rw [show applyRule raw .temperature st = ruleTemperature raw st from rfl,
      ruleTemperature_spec]
    exact tempStatusUpd_mono raw st.status
  | noAnomalies =>
    rw [show applyRule raw .noAnomalies st = ruleNoAnomalies st from rfl, ruleNoAnomalies_spec]

lemma foldl_rules_status_mono (raw : RawSmartData) :
    ∀ (rules : List SmartRule) (st : AnalysisState),
      severity st.status ≤ severity ((rules.foldl (fun s r => applyRule raw r s) st).status) := by
  intro rules
  induction rules with
  | nil => intro st; exact le_refl _
  | cons r rules ih => intro st; exact le_trans (applyRule_status_mono raw r st) (ih _)

/-- C2: within one analysis pass the health status only escalates along
HEALTHY -> WARNING -> FAILED, regardless of the order in which the rule
blocks fire: applying any sequence of rules never lowers the severity,
once FAILED is set every later rule sequence still yields FAILED, and
once WARNING is set no later rule sequence yields HEALTHY.  The actual
pass `analyzeRaw` is exactly the fold of the source-ordered rule list. -/
theorem smart_status_escalation_monotonic :
    ∀ (raw : RawSmartData) (rules : List SmartRule) (st : AnalysisState),
      severity st.status ≤ severity ((rules.foldl (fun s r => applyRule raw r s) st).status) ∧
      (st.status = .FAILED →
        (rules.foldl (fun s r => applyRule raw r s) st).status = .FAILED) ∧
      (st.status = .WARNING →
        (rules.foldl (fun s r => applyRule raw r s) st).status ≠ .HEALTHY) ∧
      analyzeRaw raw = passRules.foldl (fun st r => applyRule raw r st) initial_state := by
  intro raw rules st
  refine ⟨foldl_rules_status_mono raw rules st, ?_, ?_, rfl⟩
  · intro h
    have hm := foldl_rules_status_mono raw rules st
    rw [h] at hm
    exact (severity_two_iff _).mp (by simpa [severity] using hm)
  · intro h
    have hm := foldl_rules_status_mono raw rules st
    rw [h] at hm
    exact severity_one_ne_healthy _ (by simpa [severity] using hm)

/-- Witness for C2: starting from a FAILED state, the remaining rules of
the pass leave the status FAILED on a concrete payload. -/
theorem smart_status_escalation_monotonic_witness :
    ([SmartRule.nvme, SmartRule.ataAttrs, SmartRule.temperature].foldl
        (fun s r => applyRule rawScenarioC r s)
        { status := .FAILED, summary := [], recommendations := [],
          critical_attributes := [] }).status = .FAILED :=
  (smart_status_escalation_monotonic rawScenarioC
    [SmartRule.nvme, SmartRule.ataAttrs, SmartRule.temperature] _).2.1 rfl

/-! ### FAILED is absorbing (C10) -/

lemma escalateIfHealthy_failed : escalateIfHealthy .FAILED = .FAILED := rfl

lemma nvmeStatusUpd_failed (raw : RawSmartData) : nvmeStatusUpd raw .FAILED = .FAILED := by
  unfold nvmeStatusUpd
  cases raw.nvme_log with
  | none => rfl
  | some log =>
    by_cases h1 : log.critical_warning > 0 <;> by_cases h2 : log.percentage_used > 85 <;>
      simp [h1, h2, escalateIfHealthy]

lemma ataStatusStep_failed (a : AtaAttr) : ataStatusStep a .FAILED = .FAILED := by
  unfold ataStatusStep
  split
  · rfl
  · split
    · rfl
    · rfl

lemma ataStatusFold_failed :
    ∀ (t : List AtaAttr), t.foldl (fun s a => ataStatusStep a s) .FAILED = .FAILED := by
  intro t
  induction t with
  | nil => rfl
  | cons a t ih => rw [List.foldl_cons, ataStatusStep_failed, ih]

lemma ataStatusUpd_failed (raw : RawSmartData) : ataStatusUpd raw .FAILED = .FAILED := by
  unfold ataStatusUpd
  cases raw.ata_table with
  | none => rfl
  | some t => exact ataStatusFold_failed t

lemma tempStatusUpd_failed (raw : RawSmartData) : tempStatusUpd raw .FAILED = .FAILED := by
  unfold tempStatusUpd
  split
  · rfl
  · split <;> rfl

lemma passStatus_failed (raw : RawSmartData) (h : raw.smart_status_passed = false) :
    passStatus raw = .FAILED := by
  unfold passStatus
  rw [show selfTestStatusUpd raw .HEALTHY = .FAILED from by simp [selfTestStatusUpd, h],
    nvmeStatusUpd_failed, ataStatusUpd_failed, tempStatusUpd_failed]

/-- C10: a non-empty payload whose self-test indicator does not report
passed (missing `smart_status`, missing `passed`, or `passed` falsy) is
classified FAILED — the absence of a passing self-test result is treated
as a failed self-test, not as UNKNOWN. -/
theorem missing_selftest_reports_failed :
    ∀ raw : RawSmartData, raw.smart_status_passed = false →
      (analyze_smart_data (some raw)).health_status = "FAILED" ∧
      (analyze_smart_data (some raw)).health_status_description = "危险 (FAILED)" := by
  intro raw h
  have hs : (analyzeRaw raw).status = .FAILED := by
    rw [analyzeRaw_spec]
    exact passStatus_failed raw h
  constructor <;> simp [analyze_smart_data, hs, HealthStatus.name, HealthStatus.value]

/-- Witness for C10 at a concrete payload with no passing self-test. -/
theorem missing_selftest_reports_failed_witness :
    (analyze_smart_data (some rawScenarioCFail)).health_status = "FAILED" ∧
    (analyze_smart_data (some rawScenarioCFail)).health_status_description = "危险 (FAILED)" :=
  missing_selftest_reports_failed rawScenarioCFail rfl

/-! ### WARNING-level status tracking -/

lemma escalateIfHealthy_warning : escalateIfHealthy .WARNING = .WARNING := rfl

lemma escalateIfHealthy_HW (s : HealthStatus) (h : s = .HEALTHY ∨ s = .WARNING) :
    escalateIfHealthy s = .WARNING := by
  rcases h with h | h <;> subst h <;> rfl

lemma ataStatusStep_warning (b : AtaAttr) : ataStatusStep b .WARNING = .WARNING := by
  unfold ataStatusStep
  split
  · rfl
  · split
    · rfl
    · rfl

lemma ataStatusStep_HW (b : AtaAttr) (s : HealthStatus) (h : s = .HEALTHY ∨ s = .WARNING) :
    ataStatusStep b s = .HEALTHY ∨ ataStatusStep b s = .WARNING := by
  unfold ataStatusStep
  split
  · exact h
  · split
    · right; exact escalateIfHealthy_HW s h
    · exact h

lemma ataStatusFold_warning :
    ∀ (t : List AtaAttr), t.foldl (fun s a => ataStatusStep a s) .WARNING = .WARNING := by
  intro t
  induction t with
  | nil => rfl
  | cons a t ih => rw [List.foldl_cons, ataStatusStep_warning, ih]

lemma ataStatusFold_HW :
    ∀ (t : List AtaAttr) (s : HealthStatus), s = .HEALTHY ∨ s = .WARNING →
      t.foldl (fun s a => ataStatusStep a s) s = .HEALTHY ∨
        t.foldl (fun s a => ataStatusStep a s) s = .WARNING := by
  intro t
  induction t with
  | nil => intro s h; exact h
  | cons a t ih => intro s h; exact ih _ (ataStatusStep_HW a s h)

lemma ataStatusUpd_warning (raw : RawSmartData) : ataStatusUpd raw .WARNING = .WARNING := by
  unfold ataStatusUpd
  split
  · rfl
  · exact ataStatusFold_warning _

lemma tempStatusUpd_warning (raw : RawSmartData) : tempStatusUpd raw .WARNING = .WARNING := by
  unfold tempStatusUpd
  split
  · rfl
  · split
    · exact escalateIfHealthy_warning
    · rfl

lemma nvmeStatusUpd_healthy_HW (raw : RawSmartData)
    (hcw : ∀ log, raw.nvme_log = some log → log.critical_warning ≤ 0) :
    nvmeStatusUpd raw .HEALTHY = .HEALTHY ∨ nvmeStatusUpd raw .HEALTHY = .WARNING := by
  unfold nvmeStatusUpd
  cases h : raw.nvme_log with
  | none => left; rfl
  | some log =>
    have hc : ¬ log.critical_warning > 0 := by have := hcw log h; omega
    simp only [hc, if_neg, if_false, ite_false]
    split
    · right; rfl
    · left; rfl

/-! ### Analyzer output projections -/

lemma analyze_some_health_status (raw : RawSmartData) :
    (analyze_smart_data (some raw)).health_status = (passStatus raw).name := by
  simp [analyze_smart_data, analyzeRaw_spec]

lemma analyze_some_summary (raw : RawSmartData) :
    (analyze_smart_data (some raw)).summary =
      preNoAnomaliesSummary raw ++ noAnomaliesSummarySeg raw := by
  simp [analyze_smart_data, analyzeRaw_spec]

lemma analyze_some_recommendations (raw : RawSmartData) :
    (analyze_smart_data (some raw)).recommendations =
      selfTestRecSeg raw ++ nvmeRecSeg raw ++ ataRecSeg raw ++
        tempRecSeg raw ++ noAnomaliesRecSeg raw := by
  simp [analyze_smart_data, analyzeRaw_spec]

lemma analyze_some_critical_attributes (raw : RawSmartData) :
    (analyze_smart_data (some raw)).critical_attributes = ataFindingSeg raw := by
  simp [analyze_smart_data, analyzeRaw_spec]

/-! ### C9: finding accumulation is not gated by current severity -/

/-- C9: each WARNING-triggering condition contributes its summary line,
recommendation and (for ATA attributes) its critical-attribute finding to
the final report for every payload — in particular also for payloads
where an earlier rule has already raised the status to WARNING or FAILED,
since no hypothesis on the other fields of the payload is needed. -/
theorem findings_not_gated_by_severity :
    ∀ (raw : RawSmartData),
      (∀ (t : List AtaAttr) (a : AtaAttr), raw.ata_table = some t → a ∈ t →
        (∀ f, ataFindingOf a = some f →
          f ∈ (analyze_smart_data (some raw)).critical_attributes) ∧
        (∀ s, ataSummaryOf a = some s → s ∈ (analyze_smart_data (some raw)).summary) ∧
        (∀ s, ataRecOf a = some s → s ∈ (analyze_smart_data (some raw)).recommendations)) ∧
      (∀ tp : Int, raw.temperature_current = some tp → tp > 55 →
        tempLine tp ∈ (analyze_smart_data (some raw)).summary ∧
        "检查机箱通风和散热情况。" ∈ (analyze_smart_data (some raw)).recommendations) ∧
      (∀ log : NvmeLog, raw.nvme_log = some log → log.percentage_used > 85 →
        puLine log.percentage_used ∈ (analyze_smart_data (some raw)).summary ∧
        "考虑在不久的将来更换此SSD。" ∈ (analyze_smart_data (some raw)).recommendations) := by
  intro raw
  refine ⟨?_, ?_, ?_⟩
  · intro t a ht ha
    refine ⟨?_, ?_, ?_⟩
    · intro f hf
      rw [analyze_some_critical_attributes]
      have : f ∈ ataFindingSeg raw := by
        unfold ataFindingSeg
        rw [ht]
        exact List.mem_filterMap.mpr ⟨a, ha, hf⟩
      exact this
    · intro s hs
      rw [analyze_some_summary]
      have hmem : s ∈ ataSummarySeg raw := by
        unfold ataSummarySeg
        rw [ht]
        exact List.mem_filterMap.mpr ⟨a, ha, hs⟩
      simp only [preNoAnomaliesSummary, List.mem_append]
      tauto
    · intro s hs
      rw [analyze_some_recommendations]
      have hmem : s ∈ ataRecSeg raw := by
        unfold ataRecSeg
        rw [ht]
        exact List.mem_filterMap.mpr ⟨a, ha, hs⟩
      simp only [List.mem_append]
      tauto
  · intro tp ht h55
    have hseg1 : tempLine tp ∈ tempSummarySeg raw := by
      unfold tempSummarySeg
      rw [ht]
      simp [h55]
    have hseg2 : ("检查机箱通风和散热情况。" : String) ∈ tempRecSeg raw := by
      unfold tempRecSeg
      rw [ht]
      simp [h55]
    constructor
    · rw [analyze_some_summary]
      simp only [preNoAnomaliesSummary, List.mem_append]
      tauto
    · rw [analyze_some_recommendations]
      simp only [List.mem_append]
      tauto
  · intro log hl h85
    have hseg1 : puLine log.percentage_used ∈ nvmeSummarySeg raw := by
      unfold nvmeSummarySeg
      rw [hl]
      simp [h85]
    have hseg2 : ("考虑在不久的将来更换此SSD。" : String) ∈ nvmeRecSeg raw := by
      unfold nvmeRecSeg
      rw [hl]
      simp [h85]
    constructor
    · rw [analyze_some_summary]
      simp only [preNoAnomaliesSummary, List.mem_append]
      tauto
    · rw [analyze_some_recommendations]
      simp only [List.mem_append]
      tauto

/-- Witness for C9 on a payload whose status is already FAILED by the
self-test rule: the life-usage and temperature lines are still present. -/
theorem findings_not_gated_by_severity_witness :
    puLine 90 ∈ (analyze_smart_data (some rawEverything)).summary ∧
    tempLine 60 ∈ (analyze_smart_data (some rawEverything)).summary :=
  ⟨((findings_not_gated_by_severity rawEverything).2.2
      { critical_warning := 3, percentage_used := 90 } rfl (by decide)).1,
   ((findings_not_gated_by_severity rawEverything).2.1 60 rfl (by decide)).1⟩

/-! ### C5: Scenario A -/

/-- Counterexample to the literal universal reading of Scenario A: this
payload's table contains attribute id 5 with raw value 3, the self-test
passed and the temperature is 40, yet the analyzer reports two
critical-attribute findings (a second positive critical attribute, id
197, is also present), not exactly one. -/
theorem scenario_a_counterexample :
    rawScenarioATwo.smart_status_passed = true ∧
    rawScenarioATwo.temperature_current = some 40 ∧
    rawScenarioATwo.ata_table = some [attrRealloc3, attrPending2] ∧
    attrRealloc3.id = 5 ∧ attrRealloc3.raw_value = 3 ∧
    (analyze_smart_data (some rawScenarioATwo)).critical_attributes.length = 2 := by
  refine ⟨rfl, rfl, rfl, rfl, rfl, ?_⟩
  rfl

lemma ataStatusStep_id5_raw3 (a : AtaAttr) (h5 : a.id = 5) (h3 : a.raw_value = 3)
    (s : HealthStatus) : ataStatusStep a s = escalateIfHealthy s := by
  unfold ataStatusStep
  rw [h5, h3]
  rfl

lemma ataFindingOf_of_none_step (b : AtaAttr) (s : HealthStatus)
    (h : ataFindingOf b = none) : ataStatusStep b s = s := by
  unfold ataFindingOf at h
  unfold ataStatusStep
  rcases heq : lookupCritical b.id with _ | ⟨nm, ds, cr⟩
  · simp
  · by_cases hc : cr = true ∧ b.raw_value > 0
    · simp [heq, hc] at h
    · simp [hc]

lemma ataStatusFold_with_trigger (l1 l2 : List AtaAttr) (a : AtaAttr)
    (hstep : ∀ s, ataStatusStep a s = escalateIfHealthy s) (s : HealthStatus)
    (hs : s = .HEALTHY ∨ s = .WARNING) :
    (l1 ++ a :: l2).foldl (fun s b => ataStatusStep b s) s = .WARNING := by
  rw [List.foldl_append, List.foldl_cons]
  have h1 := ataStatusFold_HW l1 s hs
  rw [hstep _, escalateIfHealthy_HW _ h1]
  exact ataStatusFold_warning l2

/-- C5 amended: Scenario A holds once the payload is otherwise nominal —
for every payload whose table contains attribute id 5 with raw value 3,
whose self-test passed, whose temperature is 40, whose other table
entries contribute no finding, and whose NVMe log (if any) reports no
critical warning, the analyzer returns WARNING with exactly one
critical-attribute finding, for id 5, carrying the attribute's raw,
normalized, worst and threshold values. -/
theorem scenario_a_amended :
    ∀ (raw : RawSmartData) (l1 l2 : List AtaAttr) (a : AtaAttr),
      raw.smart_status_passed = true →
      raw.ata_table = some (l1 ++ a :: l2) →
      a.id = 5 → a.raw_value = 3 →
      (∀ b ∈ l1, ataFindingOf b = none) →
      (∀ b ∈ l2, ataFindingOf b = none) →
      (∀ log, raw.nvme_log = some log → log.critical_warning ≤ 0) →
      raw.temperature_current = some 40 →
      (analyze_smart_data (some raw)).health_status = "WARNING" ∧
      ∃ f, (analyze_smart_data (some raw)).critical_attributes = [f] ∧
        f.id = 5 ∧ f.raw_value = 3 ∧ f.name = "Reallocated_Sector_Ct" ∧
        f.value = a.value ∧ f.worst = a.worst ∧ f.thresh = a.thresh := by
  intro raw l1 l2 a hpass ht h5 h3 hl1 hl2 hcw htemp
  constructor
  · rw [analyze_some_health_status]
    have hstatus : passStatus raw = .WARNING := by
      unfold passStatus
      rw [show selfTestStatusUpd raw .HEALTHY = .HEALTHY from by
        simp [selfTestStatusUpd, hpass]]
      have h1 := nvmeStatusUpd_healthy_HW raw hcw
      have h2 : ataStatusUpd raw (nvmeStatusUpd raw .HEALTHY) = .WARNING := by
        unfold ataStatusUpd
        rw [ht]
        exact ataStatusFold_with_trigger l1 l2 a (ataStatusStep_id5_raw3 a h5 h3) _ h1
      rw [h2, tempStatusUpd_warning]
    rw [hstatus]
    rfl
  · have hfind : ∃ f, ataFindingOf a = some f ∧ f.id = 5 ∧ f.raw_value = 3 ∧
        f.name = "Reallocated_Sector_Ct" ∧
        f.value = a.value ∧ f.worst = a.worst ∧ f.thresh = a.thresh := by
      unfold ataFindingOf
      rw [h5, h3]
      exact ⟨_, rfl, rfl, rfl, rfl, rfl, rfl, rfl⟩
    obtain ⟨f, hfa, hf1, hf2, hf3, hf4, hf5, hf6⟩ := hfind
    refine ⟨f, ?_, hf1, hf2, hf3, hf4, hf5, hf6⟩
    rw [analyze_some_critical_attributes]
    simp [ataFindingSeg, ht, List.filterMap_append, filterMap_cons_toList, hfa,
      List.filterMap_eq_nil_iff.mpr hl1, List.filterMap_eq_nil_iff.mpr hl2]

/-- Witness for the amended Scenario A at the nominal concrete payload. -/
theorem scenario_a_amended_witness :
    (analyze_smart_data (some rawScenarioA)).health_status = "WARNING" ∧
    ∃ f, (analyze_smart_data (some rawScenarioA)).critical_attributes = [f] ∧
      f.id = 5 ∧ f.raw_value = 3 ∧ f.name = "Reallocated_Sector_Ct" ∧
      f.value = attrRealloc3.value ∧ f.worst = attrRealloc3.worst ∧
      f.thresh = attrRealloc3.thresh :=
  scenario_a_amended rawScenarioA [] [] attrRealloc3 rfl rfl rfl rfl
    (by simp) (by simp) (by simp [rawScenarioA]) rfl

/-! ### C6: Scenario C -/

/-- Counterexample to the literal universal reading of Scenario C: a
payload with NVMe percentage-used 90 and critical-warning 0 whose
self-test indicator does not report passed is classified FAILED, not
WARNING. -/
theorem scenario_c_counterexample :
    rawScenarioCFail.nvme_log = some { critical_warning := 0, percentage_used := 90 } ∧
    (analyze_smart_data (some rawScenarioCFail)).health_status = "FAILED" ∧
    (analyze_smart_data (some rawScenarioCFail)).health_status ≠ "WARNING" := by
  have h : (analyze_smart_data (some rawScenarioCFail)).health_status = "FAILED" := rfl
  refine ⟨rfl, h, ?_⟩
  rw [h]
  decide

lemma nvmeStatusUpd_healthy_warning (raw : RawSmartData) (log : NvmeLog)
    (hl : raw.nvme_log = some log) (hcw : log.critical_warning = 0)
    (hpu : log.percentage_used = 90) :
    nvmeStatusUpd raw .HEALTHY = .WARNING := by
  unfold nvmeStatusUpd
  rw [hl]
  have h1 : ¬ log.critical_warning > 0 := by omega
  have h2 : log.percentage_used > 85 := by omega
  simp [h1, h2, escalateIfHealthy]

/-- C6 amended: Scenario C holds once the self-test indicator reports
passed — for every payload with a passing self-test whose NVMe health
log has percentage_used 90 and critical_warning 0, the analyzer returns
WARNING and its summary contains the SSD life-usage line. -/
theorem scenario_c_amended :
    ∀ (raw : RawSmartData) (log : NvmeLog),
      raw.smart_status_passed = true →
      raw.nvme_log = some log →
      log.critical_warning = 0 →
      log.percentage_used = 90 →
      (analyze_smart_data (some raw)).health_status = "WARNING" ∧
      puLine 90 ∈ (analyze_smart_data (some raw)).summary := by
  intro raw log hpass hl hcw hpu
  constructor
  · rw [analyze_some_health_status]
    have hstatus : passStatus raw = .WARNING := by
      unfold passStatus
      rw [show selfTestStatusUpd raw .HEALTHY = .HEALTHY from by
        simp [selfTestStatusUpd, hpass]]
      rw [nvmeStatusUpd_healthy_warning raw log hl hcw hpu, ataStatusUpd_warning,
        tempStatusUpd_warning]
    rw [hstatus]
    rfl
  · have hmem : puLine 90 ∈ nvmeSummarySeg raw := by
      unfold nvmeSummarySeg
      rw [hl]
      have h2 : log.percentage_used > 85 := by omega
      simp [h2, hpu]
    rw [analyze_some_summary]
    simp only [preNoAnomaliesSummary, List.mem_append]
    tauto

/-- Witness for the amended Scenario C at the nominal concrete payload. -/
theorem scenario_c_amended_witness :
    (analyze_smart_data (some rawScenarioC)).health_status = "WARNING" ∧
    puLine 90 ∈ (analyze_smart_data (some rawScenarioC)).summary :=
  scenario_c_amended rawScenarioC { critical_warning := 0, percentage_used := 90 }
    rfl rfl rfl rfl

/-! ### C7: per-device isolation of S.M.A.R.T. failures -/

lemma lookupAssoc_update_self {β : Type} (m : List (String × β)) (k : String) (v : β) :
    lookupAssoc (updateAssoc m k v) k = some v := by
  induction m with
  | nil => simp [updateAssoc, lookupAssoc]
  | cons e rest ih =>
    obtain ⟨k', v'⟩ := e
    by_cases h : k' = k
    · simp [updateAssoc, lookupAssoc, h]
    · simp [updateAssoc, lookupAssoc, h, ih]

lemma lookupAssoc_update_ne {β : Type} (m : List (String × β)) (k p : String) (v : β)
    (h : k ≠ p) : lookupAssoc (updateAssoc m k v) p = lookupAssoc m p := by
  induction m with
  | nil => simp [updateAssoc, lookupAssoc, fun hc : k = p => h hc]
  | cons e rest ih =>
    obtain ⟨k', v'⟩ := e
    by_cases h1 : k' = k <;> by_cases h2 : k' = p
    · exact absurd (h1 ▸ h2) h
    · simp [updateAssoc, lookupAssoc, h1, h2, h]
    · simp [updateAssoc, lookupAssoc, h1, h2, Ne.symm h]
    · simp [updateAssoc, lookupAssoc, h1, h2, ih]

lemma collect_foldl_lookup_notmem {p : String} :
    ∀ (devices : List SmartDevice) (acc : List (String × DiskInfoEntry))
      (fetch : SmartDevice → Option RawSmartData),
      (∀ d ∈ devices, d.path ≠ p) →
      lookupAssoc (devices.foldl (smartStep fetch) acc) p = lookupAssoc acc p := by
  intro devices
  induction devices with
  | nil => intro acc fetch _; rfl
  | cons d rest ih =>
    intro acc fetch h
    rw [List.foldl_cons]
    rw [ih _ _ (fun d' hd' => h d' (List.mem_cons_of_mem _ hd'))]
    simp only [smartStep]
    exact lookupAssoc_update_ne _ _ _ _ (h d (List.mem_cons_self _ _))

lemma collect_foldl_lookup_mem :
    ∀ (devices : List SmartDevice) (acc : List (String × DiskInfoEntry))
      (fetch : SmartDevice → Option RawSmartData) (d : SmartDevice),
      d ∈ devices → (devices.map SmartDevice.path).Nodup →
      lookupAssoc (devices.foldl (smartStep fetch) acc) d.path =
        some { raw_smart_data := fetch d, analysis := analyze_smart_data (fetch d) } := by
  intro devices
  induction devices with
  | nil => intro acc fetch d hd; cases hd
  | cons d0 rest ih =>
    intro acc fetch d hd hnd
    rw [List.map_cons, List.nodup_cons] at hnd
    rw [List.foldl_cons]
    rcases List.mem_cons.mp hd with h | h
    · subst h
      have hrest : ∀ d' ∈ rest, d'.path ≠ d.path := by
        intro d' hd' heq
        exact hnd.1 (heq ▸ List.mem_map_of_mem _ hd')
      rw [collect_foldl_lookup_notmem rest _ fetch hrest]
      simp only [smartStep]
      exact lookupAssoc_update_self _ _ _
    · exact ih _ fetch d h hnd.2

lemma collect_foldl_lookup_congr :
    ∀ (devices : List SmartDevice) (acc1 acc2 : List (String × DiskInfoEntry))
      (fetch1 fetch2 : SmartDevice → Option RawSmartData) (p : String),
      lookupAssoc acc1 p = lookupAssoc acc2 p →
      (∀ d ∈ devices, d.path = p → fetch1 d = fetch2 d) →
      lookupAssoc (devices.foldl (smartStep fetch1) acc1) p =
        lookupAssoc (devices.foldl (smartStep fetch2) acc2) p := by
  intro devices
  induction devices with
  | nil => intro acc1 acc2 f1 f2 p h _; exact h
  | cons d rest ih =>
    intro acc1 acc2 f1 f2 p hacc hag
    rw [List.foldl_cons, List.foldl_cons]
    apply ih
    · by_cases hp : d.path = p
      · have hf : f1 d = f2 d := hag d (List.mem_cons_self _ _) hp
        simp only [smartStep, hf]
        subst hp
        rw [lookupAssoc_update_self, lookupAssoc_update_self]
      · simp only [smartStep]
        rw [lookupAssoc_update_ne _ _ _ _ hp, lookupAssoc_update_ne _ _ _ _ hp]
        exact hacc
    · intro d' hd' hp'
      exact hag d' (List.mem_cons_of_mem _ hd') hp'

/-- C7: when fetching the raw payload for a discovered device fails, that
device's `disk_info` entry stores no raw data and the UNKNOWN analysis
with its single explanatory summary line, and the entries of all other
devices depend only on their own fetches: changing the failing device's
fetch result does not change any other device's entry. -/
theorem smart_unknown_isolation :
    ∀ (devices : List SmartDevice) (fetch1 fetch2 : SmartDevice → Option RawSmartData)
      (d : SmartDevice),
      (devices.map SmartDevice.path).Nodup → d ∈ devices → fetch1 d = none →
      lookupAssoc (collect_all_smart_info devices fetch1) d.path =
        some { raw_smart_data := none, analysis := unknownAnalysis } ∧
      unknownAnalysis.health_status = "UNKNOWN" ∧
      unknownAnalysis.summary = ["无法获取S.M.A.R.T.数据。"] ∧
      (∀ p, p ≠ d.path →
        (∀ d' ∈ devices, d'.path ≠ d.path → fetch1 d' = fetch2 d') →
        lookupAssoc (collect_all_smart_info devices fetch1) p =
          lookupAssoc (collect_all_smart_info devices fetch2) p) := by
  intro devices f1 f2 d hnd hd hf
  refine ⟨?_, rfl, rfl, ?_⟩
  · have h := collect_foldl_lookup_mem devices [] f1 d hd hnd
    rw [hf] at h
    exact h
  · intro p hp hagree
    unfold collect_all_smart_info
    apply collect_foldl_lookup_congr devices [] [] f1 f2 p rfl
    intro d' hd' hp'
    refine hagree d' hd' ?_
    rw [hp']
    exact hp

/-- Witness for C7 on two concrete devices where `/dev/sda` fails. -/
theorem smart_unknown_isolation_witness :
    lookupAssoc (collect_all_smart_info [devSda, devSdb] fetchSdaFails) "/dev/sda" =
      some { raw_smart_data := none, analysis := unknownAnalysis } ∧
    lookupAssoc (collect_all_smart_info [devSda, devSdb] fetchSdaFails) "/dev/sdb" =
      lookupAssoc (collect_all_smart_info [devSda, devSdb] fetchSdaOk) "/dev/sdb" := by
  have h := smart_unknown_isolation [devSda, devSdb] fetchSdaFails fetchSdaOk devSda
    (by decide) (by simp) rfl
  exact ⟨h.1, h.2.2.2 "/dev/sdb" (by decide) (by decide)⟩

/-! ### C8: copy-out accessors and aliasing -/

/-- C8 counterexample: `dict.copy()` is a shallow copy.  Starting from a
store heap `{'data': {'x': 1}}`, a caller takes the snapshot returned by
`get_hardware_info`, follows its `'data'` entry to the shared nested dict
(reference 1) and assigns a new value into it; the snapshot returned by a
subsequent `get_hardware_info` call has changed, so returned values are
not independent copies once nested members are involved. -/
theorem accessor_copy_counterexample :
    readPath (get_hardware_info heapNested 0).1 (get_hardware_info heapNested 0).2
        ["data", "x"] = some (.prim 1) ∧
    readPath (get_hardware_info heapNested 0).1 (get_hardware_info heapNested 0).2
        ["data"] = some (.pdict [("x", 2)]) ∧
    readPath
        (get_hardware_info (dictSet ((get_hardware_info heapNested 0).1 ++ [.prim 99]) 1 "x" 4) 0).1
        (get_hardware_info (dictSet ((get_hardware_info heapNested 0).1 ++ [.prim 99]) 1 "x" 4) 0).2
        ["data", "x"] = some (.prim 99) := by
  refine ⟨rfl, rfl, rfl⟩

lemma lookupAssoc_mem_values {β : Type} :
    ∀ (m : List (String × β)) (k : String) (v : β),
      lookupAssoc m k = some v → v ∈ m.map Prod.snd := by
  intro m
  induction m with
  | nil => intro k v h; cases h
  | cons e rest ih =>
    intro k v h
    obtain ⟨k', v'⟩ := e
    by_cases hk : k' = k
    · simp only [lookupAssoc, if_pos hk] at h
      simp [← Option.some_inj.mp h]
    · simp only [lookupAssoc, if_neg hk] at h
      simp [ih k v h]

lemma readPath_agree :
    ∀ (ks : List String) (ha hb : Heap) (n : Nat),
      (∀ b, b < n → ha.get? b = hb.get? b) →
      (∀ b, b < n → ∀ obj, ha.get? b = some obj → ∀ c ∈ objRefs obj, c < n) →
      ∀ r, r < n → readPath ha r ks = readPath hb r ks := by
  intro ks
  induction ks with
  | nil =>
    intro ha hb n hag hcl r hr
    simpa [readPath] using hag r hr
  | cons k ks ih =>
    intro ha hb n hag hcl r hr
    unfold readPath
    rw [← hag r hr]
    cases hobj : ha.get? r with
    | none => rfl
    | some obj =>
      cases obj with
      | prim v => rfl
      | pstr s => rfl
      | plist items => rfl
      | pdict es =>
        show (match lookupAssoc es k with
              | some r' => readPath ha r' ks
              | none => none) =
            (match lookupAssoc es k with
              | some r' => readPath hb r' ks
              | none => none)
        cases hlk : lookupAssoc es k with
        | none => rfl
        | some ref =>
          have hmem : ref ∈ objRefs (PyObj.pdict es) := by
            simpa [objRefs] using lookupAssoc_mem_values es k ref hlk
          exact ih ha hb n hag hcl ref (hcl r hr _ hobj ref hmem)

lemma readPath_nil (h : Heap) (r : Ref) : readPath h r [] = h.get? r := rfl

lemma readPath_cons_none (h : Heap) (r : Ref) (es : List (String × Ref)) (k : String)
    (ks : List String) (hget : h.get? r = some (.pdict es))
    (hlk : lookupAssoc es k = none) : readPath h r (k :: ks) = none := by
  have hget' : h[r]? = some (PyObj.pdict es) := by
    rw [← List.get?_eq_getElem?]
    exact hget
  simp [readPath, hget', hlk]

lemma readPath_cons_some (h : Heap) (r : Ref) (es : List (String × Ref)) (k : String)
    (ks : List String) (r' : Ref) (hget : h.get? r = some (.pdict es))
    (hlk : lookupAssoc es k = some r') : readPath h r (k :: ks) = readPath h r' ks := by
  have hget' : h[r]? = some (PyObj.pdict es) := by
    rw [← List.get?_eq_getElem?]
    exact hget
  simp [readPath, hget', hlk]

/-- C8 amended: the accessor's shallow copy is a fresh top-level
collection — for every well-formed store heap, any caller mutation that
touches only the returned copy (reference `h.length`) or freshly
allocated objects, leaving every address below `h.length` intact,
changes neither the store's observable content nor the snapshot returned
by a subsequent `get_hardware_info` call, along every path of keys;
independence fails only through the shared nested members exhibited by
the counterexample above. -/
theorem accessor_copy_amended :
    ∀ (h h2 : Heap) (s : Ref) (es : List (String × Ref)) (ks : List String),
      heapWF h → h.get? s = some (.pdict es) →
      (∀ b, b < h.length → h2.get? b = ((get_hardware_info h s).1).get? b) →
      readPath h2 s ks = readPath h s ks ∧
      readPath (get_hardware_info h2 s).1 (get_hardware_info h2 s).2 ks =
        readPath (get_hardware_info h s).1 (get_hardware_info h s).2 ks := by
  intro h h2 s es ks hWF hget hagree
  have hs_lt : s < h.length := (List.get?_eq_some.mp hget).1
  have hGH : get_hardware_info h s = (h ++ [PyObj.pdict es], h.length) := by
    unfold get_hardware_info
    rw [hget]
  have h1get : ∀ b, b < h.length → ((get_hardware_info h s).1).get? b = h.get? b := by
    intro b hb
    rw [hGH]
    exact List.get?_append hb
  have h2get : ∀ b, b < h.length → h2.get? b = h.get? b := by
    intro b hb
    rw [hagree b hb]
    exact h1get b hb
  have hcl : ∀ b, b < h.length → ∀ obj, h.get? b = some obj →
      ∀ c ∈ objRefs obj, c < h.length := by
    intro b _ obj hobj c hc
    exact hWF obj (List.get?_mem hobj) c hc
  have hcl2 : ∀ b, b < h.length → ∀ obj, h2.get? b = some obj →
      ∀ c ∈ objRefs obj, c < h.length := by
    intro b hb obj hobj c hc
    rw [h2get b hb] at hobj
    exact hcl b hb obj hobj c hc
  refine ⟨readPath_agree ks h2 h h.length h2get hcl2 s hs_lt, ?_⟩
  have h2s : h2.get? s = some (.pdict es) := by
    rw [h2get s hs_lt]
    exact hget
  have hGH2 : get_hardware_info h2 s = (h2 ++ [PyObj.pdict es], h2.length) := by
    unfold get_hardware_info
    rw [h2s]
  rw [hGH, hGH2]
  have h4get : ∀ b, b < h.length → (h2 ++ [PyObj.pdict es]).get? b = h.get? b := by
    intro b hb
    have hb2 : b < h2.length := by
      by_contra hge
      push_neg at hge
      have hnone : h2.get? b = none := List.get?_eq_none.mpr hge
      rw [h2get b hb, List.get?_eq_get hb] at hnone
      cases hnone
    rw [List.get?_append hb2]
    exact h2get b hb
  cases ks with
  | nil =>
    rw [readPath_nil, readPath_nil, List.get?_concat_length, List.get?_concat_length]
  | cons k ks =>
    cases hlk : lookupAssoc es k with
    | none =>
      rw [readPath_cons_none _ _ es k ks (List.get?_concat_length h2 _) hlk,
        readPath_cons_none _ _ es k ks (List.get?_concat_length h _) hlk]
    | some ref =>
      rw [readPath_cons_some _ _ es k ks ref (List.get?_concat_length h2 _) hlk,
        readPath_cons_some _ _ es k ks ref (List.get?_concat_length h _) hlk]
      have href : ref < h.length := by
        have hmem : ref ∈ objRefs (PyObj.pdict es) := by
          simpa [objRefs] using lookupAssoc_mem_values es k ref hlk
        exact hWF _ (List.get?_mem hget) ref hmem
      have h41 : ∀ b, b < h.length →
          (h2 ++ [PyObj.pdict es]).get? b = (h ++ [PyObj.pdict es]).get? b := by
        intro b hb
        rw [h4get b hb]
        exact (List.get?_append hb).symm
      have h4cl : ∀ b, b < h.length → ∀ obj, (h2 ++ [PyObj.pdict es]).get? b = some obj →
          ∀ c ∈ objRefs obj, c < h.length := by
        intro b hb obj hobj c hc
        rw [h4get b hb] at hobj
        exact hcl b hb obj hobj c hc
      exact readPath_agree ks _ _ h.length h41 h4cl ref href

/-- Witness for the amended C8: a top-level write into the returned copy
leaves the store and the next snapshot unchanged. -/
theorem accessor_copy_amended_witness :
    readPath (dictSet ((get_hardware_info [PyObj.pdict []] 0).1) 1 "k" 0) 0 [] =
      readPath [PyObj.pdict []] 0 [] ∧
    readPath
        (get_hardware_info (dictSet ((get_hardware_info [PyObj.pdict []] 0).1) 1 "k" 0) 0).1
        (get_hardware_info (dictSet ((get_hardware_info [PyObj.pdict []] 0).1) 1 "k" 0) 0).2
        [] =
      readPath (get_hardware_info [PyObj.pdict []] 0).1
        (get_hardware_info [PyObj.pdict []] 0).2 [] :=
  accessor_copy_amended [PyObj.pdict []]
    (dictSet ((get_hardware_info [PyObj.pdict []] 0).1) 1 "k" 0) 0 [] []
    (by unfold heapWF; decide) rfl (by decide)
